import Mathlib

/-!
Shallow embedding of the lotus-ge dashboard's cache-and-normalize pipeline.

Sources embedded here:
* `src/app/api/osrs/alchemy-floors/route.ts` (also containing the
  volatility-breakout route), `dip-detection/route.ts`,
  `volume-profile/route.ts`, `confluence/route.ts`,
  `recipe-arbitrage/route.ts` — the six per-category API routes, each with a
  Source Fetcher (`fetchXData`), a Normalizer (`processXData`) and the
  module-level five-second cache consulted by `GET`.
* `src/app/analytics/page.tsx` — the client-side transform functions, the
  `fetchData` aggregation of the six `dataUpdated` timestamps, and the table
  components.

Modelling conventions:
* JavaScript numbers are modelled as `ℚ`; the float literals `0.01`, `0.98`,
  `1.02`, `0.8` of the source appear as exact rationals.
* A possibly-absent (`undefined`/`null`) JSON field is an `Option`.
* The JavaScript `||` defaulting idiom is modelled by `jsOrQ` / `jsOrStr` /
  `jsOrBool`, which reproduce JS truthiness on the embedded types
  (`0`, `""` and `false` are falsy and take the default).
* Exceptions are explicit: outcomes that make the source throw are modelled
  as constructors (`NetResult.throws`, `JsonBody.malformed`) or as an absent
  `items` field, and the route handler `GETstep` produces the 500 branch
  exactly where the source's `catch` does.
-/

/-- JS `a || d` on numbers: `a` when present and non-zero (truthy), else `d`. -/
def jsOrQ (v : Option ℚ) (d : ℚ) : ℚ :=
  match v with
  | none => d
  | some x => if x = 0 then d else x

/-- JS `a || d` on strings: `a` when present and non-empty (truthy), else `d`. -/
def jsOrStr (v : Option String) (d : String) : String :=
  match v with
  | none => d
  | some s => if s = "" then d else s

/-- JS `a || d` on booleans: `a` when present and `true`, else `d`. -/
def jsOrBool (v : Option Bool) (d : Bool) : Bool :=
  match v with
  | none => d
  | some b => if b then true else d

/-- Helper for JS `Array.prototype.map((item, index) => ...)`, carrying the
running index. -/
def mapWithIndexFrom (f : Nat → α → β) : Nat → List α → List β
  | _, [] => []
  | i, a :: as => f i a :: mapWithIndexFrom f (i + 1) as

/-- JS `data.map((item, index) => ...)`. -/
def mapWithIndex (f : Nat → α → β) (l : List α) : List β :=
  mapWithIndexFrom f 0 l

theorem length_mapWithIndexFrom (f : Nat → α → β) :
    ∀ (n : Nat) (l : List α), (mapWithIndexFrom f n l).length = l.length := by
  intro n l
  induction l generalizing n with
  | nil => rfl
  | cons a as ih => simp [mapWithIndexFrom, ih]

theorem length_mapWithIndex (f : Nat → α → β) (l : List α) :
    (mapWithIndex f l).length = l.length :=
  length_mapWithIndexFrom f 0 l

theorem map_mapWithIndexFrom (f : Nat → α → β) (g : β → γ) :
    ∀ (n : Nat) (l : List α),
      (mapWithIndexFrom f n l).map g = mapWithIndexFrom (fun i a => g (f i a)) n l := by
  intro n l
  induction l generalizing n with
  | nil => rfl
  | cons a as ih => simp [mapWithIndexFrom, ih]

theorem mapWithIndexFrom_const_index (h : α → β) :
    ∀ (n : Nat) (l : List α), mapWithIndexFrom (fun _ a => h a) n l = l.map h := by
  intro n l
  induction l generalizing n with
  | nil => rfl
  | cons a as ih => simp [mapWithIndexFrom, ih]

theorem mapWithIndexFrom_const_elem (c : Nat → β) :
    ∀ (n : Nat) (l : List α),
      mapWithIndexFrom (fun i _ => c i) n l = (List.range' n l.length).map c := by
  intro n l
  induction l generalizing n with
  | nil => rfl
  | cons a as ih => simp [mapWithIndexFrom, List.range'_succ, ih]

/-! ### Alchemy floors route (`alchemy-floors/route.ts`) -/

/-- `interface RawAlchemyData` of `alchemy-floors/route.ts` (all fields
optional). -/
structure RawAlchemyData where
  id : Option ℚ := none
  ItemName : Option String := none
  LowPrice : Option ℚ := none
  PriceFloor : Option ℚ := none
  BuyLimit : Option ℚ := none
  pctROI : Option ℚ := none
deriving DecidableEq

/-- `interface AlchemyOpportunity` of `alchemy-floors/route.ts`. -/
structure AlchemyOpportunity where
  id : String
  name : String
  members : Bool
  icon : String
  currentLow : ℚ
  priceFloor : ℚ
  buyLimit : ℚ
  potentialProfit : ℚ
  roi : ℚ
  alchPrice : ℚ
  natureRuneCost : ℚ
  tax : ℚ
  liquidityRisk : ℚ
  capitalRisk : ℚ
  overallRisk : ℚ
deriving DecidableEq

/-- The element function of `processAlchemyData`'s `data.map((item, index) => ...)`. -/
def alchemyElem (index : Nat) (item : RawAlchemyData) : AlchemyOpportunity :=
  { id := "alchemy-" ++ toString index
    name := jsOrStr item.ItemName "Unknown Item"
    members := true
    icon := ""
    currentLow := jsOrQ item.LowPrice 0
    priceFloor := jsOrQ item.PriceFloor 0
    buyLimit := jsOrQ item.BuyLimit 0
    potentialProfit := jsOrQ item.PriceFloor 0 - jsOrQ item.LowPrice 0
    roi := jsOrQ item.pctROI 0
    alchPrice := jsOrQ item.PriceFloor 0
    natureRuneCost := 170
    tax := (⌊jsOrQ item.PriceFloor 0 * (1 / 100 : ℚ)⌋ : ℚ)
    liquidityRisk := 1
    capitalRisk := if jsOrQ item.LowPrice 0 > 1000000 then 2 else 1
    overallRisk := 2 }

/-- `processAlchemyData` of `alchemy-floors/route.ts`. -/
def processAlchemyData (data : List RawAlchemyData) : List AlchemyOpportunity :=
  mapWithIndex alchemyElem data

/-! ### Dip detection route (`dip-detection/route.ts`) -/

/-- `interface RawDipData` of `dip-detection/route.ts`. -/
structure RawDipData where
  id : Option ℚ := none
  ItemName : Option String := none
  LowPrice : Option ℚ := none
  AvgLow : Option ℚ := none
  BuyLimit : Option ℚ := none
  pctROI : Option ℚ := none
deriving DecidableEq

/-- `interface DipOpportunity` of `dip-detection/route.ts`. -/
structure DipOpportunity where
  id : ℚ
  name : String
  members : Bool
  icon : String
  currentLow : ℚ
  currentHigh : ℚ
  avg24hLow : ℚ
  avg1hLow : ℚ
  avg5mLow : ℚ
  dipMagnitude : ℚ
  dipMagnitudePercent : ℚ
  dipRecency : ℚ
  dipRecencyPercent : ℚ
  volume24hTotal : ℚ
  volume1hTotal : ℚ
  volume5mTotal : ℚ
  volumeSurge : ℚ
  buyLimit : ℚ
  potentialProfit : ℚ
  maxProfit4h : ℚ
  roi : ℚ
  historicalSupport : Bool
  volumeConsistency : ℚ
  riskScore : ℚ
deriving DecidableEq

/-- The element function of `processDipData`'s `data.map((item) => ...)`
(note: no index parameter in the source). -/
def dipElem (item : RawDipData) : DipOpportunity :=
  { id := jsOrQ item.id 0
    name := jsOrStr item.ItemName "Unknown Item"
    members := true
    icon := ""
    currentLow := jsOrQ item.LowPrice 0
    currentHigh := jsOrQ item.LowPrice 0
    avg24hLow := jsOrQ item.AvgLow 0
    avg1hLow := jsOrQ item.AvgLow 0
    avg5mLow := jsOrQ item.AvgLow 0
    dipMagnitude := jsOrQ item.AvgLow 0 - jsOrQ item.LowPrice 0
    dipMagnitudePercent := jsOrQ item.pctROI 0
    dipRecency := 0
    dipRecencyPercent := 0
    volume24hTotal := 1000
    volume1hTotal := 100
    volume5mTotal := 10
    volumeSurge := 1
    buyLimit := jsOrQ item.BuyLimit 0
    potentialProfit := jsOrQ item.AvgLow 0 - jsOrQ item.LowPrice 0
    maxProfit4h := (jsOrQ item.AvgLow 0 - jsOrQ item.LowPrice 0) * jsOrQ item.BuyLimit 0
    roi := jsOrQ item.pctROI 0
    historicalSupport := true
    volumeConsistency := (0.8 : ℚ)
    riskScore := 2 }

/-- `processDipData` of `dip-detection/route.ts` — a plain `map`, no index. -/
def processDipData (data : List RawDipData) : List DipOpportunity :=
  data.map dipElem

/-! ### Volatility breakout route (second document in `alchemy-floors/route.ts`) -/

/-- `interface RawVolatilityData` of the volatility-breakout route. -/
structure RawVolatilityData where
  ItemName : Option String := none
  CurrentPrice : Option ℚ := none
  BuyLimit : Option ℚ := none
  DailyRange : Option ℚ := none
  WeeklyRange : Option ℚ := none
  MonthlyRange : Option ℚ := none
  CompressionRatio : Option ℚ := none
  BreakoutDirection : Option String := none
  VolumeConfirmation : Option String := none
  PotentialBreakoutProfit : Option ℚ := none
  CompressionLevel : Option String := none
deriving DecidableEq

/-- `interface VolatilityOpportunity` of the volatility-breakout route. -/
structure VolatilityOpportunity where
  id : ℚ
  name : String
  currentPrice : ℚ
  buyLimit : ℚ
  dailyRange : ℚ
  weeklyRange : ℚ
  monthlyRange : ℚ
  compressionRatio : ℚ
  breakoutDirection : String
  volumeConfirmation : String
  potentialBreakoutProfit : ℚ
  compressionLevel : String
deriving DecidableEq

/-- The element function of `processVolatilityData`'s
`data.map((item, index) => ...)`; `id: index + 1`. -/
def volatilityElem (index : Nat) (item : RawVolatilityData) : VolatilityOpportunity :=
  { id := (index : ℚ) + 1
    name := jsOrStr item.ItemName "Unknown Item"
    currentPrice := jsOrQ item.CurrentPrice 0
    buyLimit := jsOrQ item.BuyLimit 0
    dailyRange := jsOrQ item.DailyRange 0
    weeklyRange := jsOrQ item.WeeklyRange 0
    monthlyRange := jsOrQ item.MonthlyRange 0
    compressionRatio := jsOrQ item.CompressionRatio 0
    breakoutDirection := jsOrStr item.BreakoutDirection "NEUTRAL"
    volumeConfirmation := jsOrStr item.VolumeConfirmation "LOW_VOLUME"
    potentialBreakoutProfit := jsOrQ item.PotentialBreakoutProfit 0
    compressionLevel := jsOrStr item.CompressionLevel "LOW_COMPRESSION" }

/-- `processVolatilityData` of the volatility-breakout route. -/
def processVolatilityData (data : List RawVolatilityData) : List VolatilityOpportunity :=
  mapWithIndex volatilityElem data

/-! ### Volume profile route (`volume-profile/route.ts`) -/

/-- `interface RawVolumeData` of `volume-profile/route.ts`. -/
structure RawVolumeData where
  ItemName : Option String := none
  CurrentPrice : Option ℚ := none
  CurrentHigh : Option ℚ := none
  BuyLimit : Option ℚ := none
  LowPriceVolume : Option ℚ := none
  HighPriceVolume : Option ℚ := none
  WeeklyLowVolume : Option ℚ := none
  WeeklyHighVolume : Option ℚ := none
  VolumeImbalanceRatio : Option ℚ := none
  VolumePattern : Option String := none
  VolumeSurge : Option String := none
  SmartMoneySignal : Option String := none
  AccumulationProfit : Option ℚ := none
deriving DecidableEq

/-- `interface VolumeProfileOpportunity` of `volume-profile/route.ts`. -/
structure VolumeProfileOpportunity where
  id : ℚ
  name : String
  currentPrice : ℚ
  currentHigh : ℚ
  buyLimit : ℚ
  lowPriceVolume : ℚ
  highPriceVolume : ℚ
  weeklyLowVolume : ℚ
  weeklyHighVolume : ℚ
  volumeImbalanceRatio : ℚ
  volumePattern : String
  volumeSurge : String
  smartMoneySignal : String
  accumulationProfit : ℚ
deriving DecidableEq

/-- The element function of `processVolumeProfileData`'s
`data.map((item, index) => ...)`; `id: index + 1`. -/
def volumeProfileElem (index : Nat) (item : RawVolumeData) : VolumeProfileOpportunity :=
  { id := (index : ℚ) + 1
    name := jsOrStr item.ItemName "Unknown Item"
    currentPrice := jsOrQ item.CurrentPrice 0
    currentHigh := jsOrQ item.CurrentHigh 0
    buyLimit := jsOrQ item.BuyLimit 0
    lowPriceVolume := jsOrQ item.LowPriceVolume 0
    highPriceVolume := jsOrQ item.HighPriceVolume 0
    weeklyLowVolume := jsOrQ item.WeeklyLowVolume 0
    weeklyHighVolume := jsOrQ item.WeeklyHighVolume 0
    volumeImbalanceRatio := jsOrQ item.VolumeImbalanceRatio 0
    volumePattern := jsOrStr item.VolumePattern "BALANCED"
    volumeSurge := jsOrStr item.VolumeSurge "NORMAL_VOLUME"
    smartMoneySignal := jsOrStr item.SmartMoneySignal "NO_SMART_MONEY_SIGNAL"
    accumulationProfit := jsOrQ item.AccumulationProfit 0 }

/-- `processVolumeProfileData` of `volume-profile/route.ts`. -/
def processVolumeProfileData (data : List RawVolumeData) : List VolumeProfileOpportunity :=
  mapWithIndex volumeProfileElem data

/-! ### Confluence route (`confluence/route.ts`) -/

/-- `interface RawConfluenceData` of `confluence/route.ts`. -/
structure RawConfluenceData where
  ItemName : Option String := none
  CurrentPrice : Option ℚ := none
  BuyLimit : Option ℚ := none
  FiveMinMean : Option ℚ := none
  HourlyMean : Option ℚ := none
  DailyMean : Option ℚ := none
  WeeklyMean : Option ℚ := none
  MonthlyMean : Option ℚ := none
  BullishConfluence : Option ℚ := none
  BearishConfluence : Option ℚ := none
  SignalStrength : Option String := none
  VolumeConfirmation : Option String := none
  PotentialProfit : Option ℚ := none
deriving DecidableEq

/-- `interface ConfluenceOpportunity` of `confluence/route.ts`. -/
structure ConfluenceOpportunity where
  id : ℚ
  name : String
  currentPrice : ℚ
  buyLimit : ℚ
  fiveMinMean : ℚ
  hourlyMean : ℚ
  dailyMean : ℚ
  weeklyMean : ℚ
  monthlyMean : ℚ
  bullishConfluence : ℚ
  bearishConfluence : ℚ
  signalStrength : String
  volumeConfirmation : String
  potentialProfit : ℚ
deriving DecidableEq

/-- The element function of `processConfluenceData`'s
`data.map((item, index) => ...)`; `id: index + 1`. -/
def confluenceElem (index : Nat) (item : RawConfluenceData) : ConfluenceOpportunity :=
  { id := (index : ℚ) + 1
    name := jsOrStr item.ItemName "Unknown Item"
    currentPrice := jsOrQ item.CurrentPrice 0
    buyLimit := jsOrQ item.BuyLimit 0
    fiveMinMean := jsOrQ item.FiveMinMean 0
    hourlyMean := jsOrQ item.HourlyMean 0
    dailyMean := jsOrQ item.DailyMean 0
    weeklyMean := jsOrQ item.WeeklyMean 0
    monthlyMean := jsOrQ item.MonthlyMean 0
    bullishConfluence := jsOrQ item.BullishConfluence 0
    bearishConfluence := jsOrQ item.BearishConfluence 0
    signalStrength := jsOrStr item.SignalStrength "MIXED_SIGNALS"
    volumeConfirmation := jsOrStr item.VolumeConfirmation "WEAK_VOLUME"
    potentialProfit := jsOrQ item.PotentialProfit 0 }

/-- `processConfluenceData` of `confluence/route.ts`. -/
def processConfluenceData (data : List RawConfluenceData) : List ConfluenceOpportunity :=
  mapWithIndex confluenceElem data

/-! ### Recipe arbitrage route (`recipe-arbitrage/route.ts`) -/

/-- `interface RawRecipeData` of `recipe-arbitrage/route.ts`. -/
structure RawRecipeData where
  ProductName : Option String := none
  ProductPrice : Option ℚ := none
  ProductBuyLimit : Option ℚ := none
  Ingredient1Name : Option String := none
  Ingredient1Price : Option ℚ := none
  Ingredient1Qty : Option String := none
  Ingredient2Name : Option String := none
  Ingredient2Price : Option ℚ := none
  Ingredient2Qty : Option String := none
  Ingredient3Name : Option String := none
  Ingredient3Price : Option ℚ := none
  Ingredient3Qty : Option String := none
  TotalIngredientCost : Option ℚ := none
  ProfitPerCraft : Option ℚ := none
  ROI : Option ℚ := none
  RecipeType : Option String := none
  QtyProduced : Option ℚ := none
  LiquidityLevel : Option String := none
deriving DecidableEq

/-- `interface RecipeArbitrageOpportunity` of `recipe-arbitrage/route.ts`. -/
structure RecipeArbitrageOpportunity where
  id : ℚ
  productName : String
  productPrice : ℚ
  productBuyLimit : ℚ
  ingredient1Name : String
  ingredient1Price : ℚ
  ingredient1Qty : String
  ingredient2Name : String
  ingredient2Price : ℚ
  ingredient2Qty : String
  ingredient3Name : String
  ingredient3Price : ℚ
  ingredient3Qty : String
  totalIngredientCost : ℚ
  profitPerCraft : ℚ
  roi : ℚ
  recipeType : String
  qtyProduced : ℚ
  liquidityLevel : String
deriving DecidableEq

/-- The element function of `processRecipeArbitrageData`'s
`data.map((item, index) => ...)`; `id: index + 1`. -/
def recipeElem (index : Nat) (item : RawRecipeData) : RecipeArbitrageOpportunity :=
  { id := (index : ℚ) + 1
    productName := jsOrStr item.ProductName "Unknown Product"
    productPrice := jsOrQ item.ProductPrice 0
    productBuyLimit := jsOrQ item.ProductBuyLimit 0
    ingredient1Name := jsOrStr item.Ingredient1Name ""
    ingredient1Price := jsOrQ item.Ingredient1Price 0
    ingredient1Qty := jsOrStr item.Ingredient1Qty ""
    ingredient2Name := jsOrStr item.Ingredient2Name ""
    ingredient2Price := jsOrQ item.Ingredient2Price 0
    ingredient2Qty := jsOrStr item.Ingredient2Qty ""
    ingredient3Name := jsOrStr item.Ingredient3Name ""
    ingredient3Price := jsOrQ item.Ingredient3Price 0
    ingredient3Qty := jsOrStr item.Ingredient3Qty ""
    totalIngredientCost := jsOrQ item.TotalIngredientCost 0
    profitPerCraft := jsOrQ item.ProfitPerCraft 0
    roi := jsOrQ item.ROI 0
    recipeType := jsOrStr item.RecipeType ""
    qtyProduced := jsOrQ item.QtyProduced 0
    liquidityLevel := jsOrStr item.LiquidityLevel "LOW_LIQUIDITY" }

/-- `processRecipeArbitrageData` of `recipe-arbitrage/route.ts`. -/
def processRecipeArbitrageData (data : List RawRecipeData) : List RecipeArbitrageOpportunity :=
  mapWithIndex recipeElem data

/-! ### Source Fetcher model

Each route's `fetchXData` tries the GitHub contents API (primary endpoint);
on a non-ok response or a thrown fetch it tries the raw CDN URL (secondary
endpoint).  The secondary fetch in the non-ok branch sits inside the inner
`try`, so if it throws, the inner `catch` issues one more secondary fetch.
Any exception escaping the inner block, a non-ok final response, or a body
whose `json()` parse throws, ends in `return { items: [], updated: null }`;
an ok final response returns `items`/`updated` verbatim (each possibly
absent).  The network is modelled as the outcomes of the (at most three)
fetch calls, and the function also returns the trace of endpoints contacted,
in order. -/

/-- Outcome of `await response.json()`: a parse failure, or a JSON document
whose `items` and `updated` fields are each possibly absent. -/
inductive JsonBody (ρ : Type) where
  | malformed
  | doc (items : Option (List ρ)) (updated : Option String)
deriving DecidableEq

/-- Outcome of one `await fetch(...)`: a thrown transport error, or a
response with an HTTP status and a body. -/
inductive NetResult (ρ : Type) where
  | throws
  | resp (status : Nat) (body : JsonBody ρ)
deriving DecidableEq

/-- `Response.ok`: status in the 200–299 range. -/
def statusOk (s : Nat) : Bool := 200 ≤ s && s < 300

/-- Prescribed outcomes for the up-to-three fetch calls a single
`fetchXData` invocation can make: the primary call, the first secondary
call, and the secondary retry from the inner `catch`. -/
structure Network (ρ : Type) where
  primary : NetResult ρ
  secondary1 : NetResult ρ
  secondary2 : NetResult ρ
deriving DecidableEq

/-- Which remote endpoint a fetch call targets: the GitHub contents API or
the raw CDN URL. -/
inductive Endpoint where
  | primary
  | secondary
deriving DecidableEq

/-- The inner `try/catch` of `fetchXData`: the chain of fetch attempts,
yielding the final `githubResponse` (or the exception that escaped the inner
block) together with the trace of endpoints contacted, in order. -/
def fetchChain (net : Network ρ) : NetResult ρ × List Endpoint :=
  match net.primary with
  | .throws => (net.secondary1, [.primary, .secondary])
  | .resp s b =>
    if statusOk s then (.resp s b, [.primary])
    else
      match net.secondary1 with
      | .throws => (net.secondary2, [.primary, .secondary, .secondary])
      | r => (r, [.primary, .secondary])

/-- Return value of `fetchXData`: `items` is absent when the JSON document
had no `items` field (the source forwards `summaryData.items` verbatim). -/
structure FetchResult (ρ : Type) where
  items : Option (List ρ)
  updated : Option String
deriving DecidableEq

/-- `fetchXData` of each route: run the fetch chain, then parse the final
response.  Every failure (escaped exception, non-ok final status, malformed
body) lands on `return { items: [], updated: null }`; the function never
throws to its caller. -/
def fetchData (net : Network ρ) : FetchResult ρ × List Endpoint :=
  let (final, trace) := fetchChain net
  match final with
  | .throws => ({ items := some [], updated := none }, trace)
  | .resp s body =>
    if statusOk s then
      match body with
      | .malformed => ({ items := some [], updated := none }, trace)
      | .doc items updated => ({ items := items, updated := updated }, trace)
    else ({ items := some [], updated := none }, trace)

/-- Whether the fetch chain ends in an ok response with a parseable JSON
document. -/
def reachesOkDoc (net : Network ρ) : Bool :=
  match (fetchChain net).1 with
  | .resp s (.doc _ _) => statusOk s
  | _ => false

/-! ### Result Cache and route handler model

Each route keeps a module-level `cache` variable and a `CACHE_DURATION` of
five seconds.  `GET` serves the cached entry while `now - cache.timestamp <
CACHE_DURATION`; otherwise it fetches, normalizes, stores a new entry whose
timestamp is the source's `updated` (when truthy, parsed with `new
Date(...).getTime()`) or else `now`, and replies with the fresh payload.
`processXData(items)` throws when `items` is absent (`undefined.map`), which
the outer `catch` turns into the 500 response, leaving the cache variable
untouched.

The response body is modelled field by field; an `Option`-valued field is
`none` when the corresponding key is absent from the object literal of that
branch (the alchemy route's constant `metadata` object on the fresh branch
is not modelled: no claim concerns it).  Date parsing is a parameter
`parseDate`, and the error branch's second `Date.now()` call is the
parameter `nowErr`. -/

/-- `CACHE_DURATION = 5 * 1000` (milliseconds), identical in all six routes. -/
def CACHE_DURATION : Int := 5 * 1000

/-- The module-level cache value `{ data, timestamp }` of one route. -/
structure CacheEntry (α : Type) where
  data : List α
  timestamp : Int
deriving DecidableEq

/-- One route's JSON reply: HTTP status plus the fields of the body object.
`data`, `dataUpdated`, `cached`, `count` and `error` are `none` when the
branch that built the reply has no such key. -/
structure ApiResponse (α : Type) where
  status : Nat
  success : Bool
  data : Option (List α)
  timestamp : Int
  dataUpdated : Option (Option String)
  cached : Option Bool
  count : Option Nat
  error : Option String
deriving DecidableEq

/-- What distinguishes the six route handlers: the Normalizer, whether the
cached-branch reply includes `count` (true for volatility, volume-profile,
confluence and recipe-arbitrage; false for alchemy and dip-detection), and
the 500 branch's error string. -/
structure RouteConfig (ρ α : Type) where
  process : List ρ → List α
  cachedHasCount : Bool
  errorMessage : String

/-- JS `result.updated ? new Date(result.updated).getTime() : now`
(an empty string is falsy). -/
def dataTimestampOf (parseDate : String → Int) (updated : Option String) (now : Int) : Int :=
  match updated with
  | none => now
  | some s => if s = "" then now else parseDate s

/-- One `GET` invocation of a route, given the already-fetched
`FetchResult`.  Returns the reply and the cache variable's new value.  The
fetch result is only consulted on the refresh path, where the source
actually performs the fetch. -/
def GETstep (cfg : RouteConfig ρ α) (parseDate : String → Int) (fr : FetchResult ρ)
    (now nowErr : Int) (cache : Option (CacheEntry α)) :
    ApiResponse α × Option (CacheEntry α) :=
  let refreshResult : ApiResponse α × Option (CacheEntry α) :=
    match fr.items with
    | none =>
      -- `processXData(undefined)` throws; the outer catch replies 500 and
      -- the cache assignment is never reached.
      ({ status := 500, success := false, data := none, timestamp := nowErr,
         dataUpdated := none, cached := none, count := none,
         error := some cfg.errorMessage }, cache)
    | some items =>
      let opportunities := cfg.process items
      let dataTimestamp := dataTimestampOf parseDate fr.updated now
      ({ status := 200, success := true, data := some opportunities,
         timestamp := dataTimestamp, dataUpdated := some fr.updated,
         cached := some false, count := some opportunities.length,
         error := none },
       some { data := opportunities, timestamp := dataTimestamp })
  match cache with
  | some e =>
    if now - e.timestamp < CACHE_DURATION then
      ({ status := 200, success := true, data := some e.data,
         timestamp := e.timestamp, dataUpdated := none, cached := some true,
         count := if cfg.cachedHasCount then some e.data.length else none,
         error := none }, cache)
    else refreshResult
  | none => refreshResult

/-- A `GET` invocation including its fetch: `GETstep` applied to
`fetchData`'s result for the given network behaviour. -/
def GETrun (cfg : RouteConfig ρ α) (parseDate : String → Int) (net : Network ρ)
    (now nowErr : Int) (cache : Option (CacheEntry α)) :
    ApiResponse α × Option (CacheEntry α) :=
  GETstep cfg parseDate (fetchData net).1 now nowErr cache

/-- The alchemy-floors route: cached branch has no `count` key. -/
def alchemyRoute : RouteConfig RawAlchemyData AlchemyOpportunity :=
  { process := processAlchemyData
    cachedHasCount := false
    errorMessage := "Failed to analyze alchemy opportunities" }

/-- The dip-detection route: cached branch has no `count` key. -/
def dipRoute : RouteConfig RawDipData DipOpportunity :=
  { process := processDipData
    cachedHasCount := false
    errorMessage := "Failed to detect price dips" }

/-- The volatility-breakout route: cached branch includes `count`. -/
def volatilityRoute : RouteConfig RawVolatilityData VolatilityOpportunity :=
  { process := processVolatilityData
    cachedHasCount := true
    errorMessage := "Failed to fetch volatility breakout data" }

/-- The volume-profile route: cached branch includes `count`. -/
def volumeProfileRoute : RouteConfig RawVolumeData VolumeProfileOpportunity :=
  { process := processVolumeProfileData
    cachedHasCount := true
    errorMessage := "Failed to fetch volume profile data" }

/-- The confluence route: cached branch includes `count`. -/
def confluenceRoute : RouteConfig RawConfluenceData ConfluenceOpportunity :=
  { process := processConfluenceData
    cachedHasCount := true
    errorMessage := "Failed to fetch confluence analysis data" }

/-- The recipe-arbitrage route: cached branch includes `count`. -/
def recipeRoute : RouteConfig RawRecipeData RecipeArbitrageOpportunity :=
  { process := processRecipeArbitrageData
    cachedHasCount := true
    errorMessage := "Failed to fetch recipe arbitrage data" }

/-! ### Client side (`src/app/analytics/page.tsx`)

The page fetches all six category endpoints, keeps each `data` array only
when `success` is true, takes the maximum of the truthy `dataUpdated`
timestamps, and runs a per-category transform (`transformXDataFromAPI`)
that slices the list to its first 50 entries before mapping.  Each table
component renders `data.slice(0, 20)`.  The page-level `formatGP`
number-to-string formatter is irrelevant to every claim and is passed as a
parameter; the client interfaces share names with the server ones, so they
carry a `Client` prefix here. -/

/-- `interface RawDipData` of `page.tsx` (the client-side one). -/
structure ClientRawDipData where
  id : Option ℚ := none
  name : Option String := none
  currentPrice : Option ℚ := none
  currentLow : Option ℚ := none
  avgPrice24h : Option ℚ := none
  avg24hLow : Option ℚ := none
  priceDropPercent : Option ℚ := none
  dipMagnitudePercent : Option ℚ := none
  volumeSurge : Option ℚ := none
  buyLimit : Option ℚ := none
  recoveryPotential : Option ℚ := none
  potentialProfit : Option ℚ := none
  members : Option Bool := none
  estimatedProfit : Option ℚ := none
  maxProfit4h : Option ℚ := none
deriving DecidableEq

/-- `interface DipItem` of `page.tsx`. -/
structure DipItem where
  id : ℚ
  name : String
  currentPrice : ℚ
  avgPrice24h : ℚ
  priceDropPercent : ℚ
  volumeSpike : ℚ
  buyLimit : ℚ
  recoveryPotential : ℚ
  members : Bool
  buyRange : String
  sellRange : String
  estimatedProfit : ℚ
deriving DecidableEq

/-- `transformDipsDataFromAPI` of `page.tsx`: `data.slice(0, 50).map(...)`.
`formatGP` abstracts the page's number formatter. -/
def transformDipsDataFromAPI (formatGP : ℚ → String) (data : List ClientRawDipData) :
    List DipItem :=
  (data.take 50).map (fun item =>
    let currentLow := jsOrQ item.currentPrice (jsOrQ item.currentLow 0)
    let avgLow := jsOrQ item.avgPrice24h (jsOrQ item.avg24hLow 0)
    { id := jsOrQ item.id 0
      name := jsOrStr item.name "Unknown Item"
      currentPrice := currentLow
      avgPrice24h := avgLow
      priceDropPercent := jsOrQ item.priceDropPercent (jsOrQ item.dipMagnitudePercent 0)
      volumeSpike := jsOrQ item.volumeSurge 1
      buyLimit := jsOrQ item.buyLimit 0
      recoveryPotential := jsOrQ item.recoveryPotential (jsOrQ item.potentialProfit 0)
      members := jsOrBool item.members false
      buyRange := formatGP (currentLow * (0.98 : ℚ)) ++ " - " ++
        formatGP (currentLow * (1.02 : ℚ))
      sellRange := formatGP (avgLow * (0.98 : ℚ)) ++ " - " ++
        formatGP (avgLow * (1.02 : ℚ))
      estimatedProfit := jsOrQ item.estimatedProfit (jsOrQ item.maxProfit4h 0) })

/-- `interface RawAlchemyData` of `page.tsx` (the client-side one). -/
structure ClientRawAlchemyData where
  id : Option ℚ := none
  name : Option String := none
  currentLow : Option ℚ := none
  priceFloor : Option ℚ := none
  alchPrice : Option ℚ := none
  potentialProfit : Option ℚ := none
  roi : Option ℚ := none
  buyLimit : Option ℚ := none
  members : Option Bool := none
deriving DecidableEq

/-- `interface AlchemyItem` of `page.tsx`. -/
structure AlchemyItem where
  id : ℚ
  name : String
  currentPrice : ℚ
  priceFloor : ℚ
  alchValue : ℚ
  profitMargin : ℚ
  roi : ℚ
  buyLimit : ℚ
  members : Bool
deriving DecidableEq

/-- `transformAlchemyDataFromAPI` of `page.tsx`: `data.slice(0, 50).map(...)`. -/
def transformAlchemyDataFromAPI (data : List ClientRawAlchemyData) : List AlchemyItem :=
  (data.take 50).map (fun item =>
    { id := jsOrQ item.id 0
      name := jsOrStr item.name "Unknown Item"
      currentPrice := jsOrQ item.currentLow 0
      priceFloor := jsOrQ item.priceFloor 0
      alchValue := jsOrQ item.alchPrice 0
      profitMargin := jsOrQ item.potentialProfit 0
      roi := jsOrQ item.roi 0
      buyLimit := jsOrQ item.buyLimit 0
      members := jsOrBool item.members false })

/-- `interface RawVolatilityData` of `page.tsx` (the client-side one). -/
structure ClientRawVolatilityData where
  id : Option ℚ := none
  name : Option String := none
  currentPrice : Option ℚ := none
  buyLimit : Option ℚ := none
  compressionRatio : Option ℚ := none
  breakoutDirection : Option String := none
  volumeConfirmation : Option String := none
  potentialBreakoutProfit : Option ℚ := none
  compressionLevel : Option String := none
deriving DecidableEq

/-- `interface VolatilityItem` of `page.tsx`. -/
structure VolatilityItem where
  id : ℚ
  name : String
  currentPrice : ℚ
  buyLimit : ℚ
  compressionRatio : ℚ
  breakoutDirection : String
  volumeConfirmation : String
  potentialBreakoutProfit : ℚ
  compressionLevel : String
deriving DecidableEq

/-- `transformVolatilityDataFromAPI` of `page.tsx`:
`data.slice(0, 50).map((item, index) => ...)`, `id: item.id || index + 1`. -/
def transformVolatilityDataFromAPI (data : List ClientRawVolatilityData) :
    List VolatilityItem :=
  mapWithIndex (fun index item =>
    { id := jsOrQ item.id ((index : ℚ) + 1)
      name := jsOrStr item.name "Unknown Item"
      currentPrice := jsOrQ item.currentPrice 0
      buyLimit := jsOrQ item.buyLimit 0
      compressionRatio := jsOrQ item.compressionRatio 0
      breakoutDirection := jsOrStr item.breakoutDirection "NEUTRAL"
      volumeConfirmation := jsOrStr item.volumeConfirmation "LOW_VOLUME"
      potentialBreakoutProfit := jsOrQ item.potentialBreakoutProfit 0
      compressionLevel := jsOrStr item.compressionLevel "LOW_COMPRESSION" })
    (data.take 50)

/-- `interface RawVolumeProfileData` of `page.tsx`. -/
structure ClientRawVolumeProfileData where
  id : Option ℚ := none
  name : Option String := none
  currentPrice : Option ℚ := none
  buyLimit : Option ℚ := none
  volumePattern : Option String := none
  volumeSurge : Option String := none
  smartMoneySignal : Option String := none
  accumulationProfit : Option ℚ := none
deriving DecidableEq

/-- `interface VolumeProfileItem` of `page.tsx`. -/
structure VolumeProfileItem where
  id : ℚ
  name : String
  currentPrice : ℚ
  buyLimit : ℚ
  volumePattern : String
  volumeSurge : String
  smartMoneySignal : String
  accumulationProfit : ℚ
deriving DecidableEq

/-- `transformVolumeProfileDataFromAPI` of `page.tsx`. -/
def transformVolumeProfileDataFromAPI (data : List ClientRawVolumeProfileData) :
    List VolumeProfileItem :=
  mapWithIndex (fun index item =>
    { id := jsOrQ item.id ((index : ℚ) + 1)
      name := jsOrStr item.name "Unknown Item"
      currentPrice := jsOrQ item.currentPrice 0
      buyLimit := jsOrQ item.buyLimit 0
      volumePattern := jsOrStr item.volumePattern "BALANCED"
      volumeSurge := jsOrStr item.volumeSurge "NORMAL_VOLUME"
      smartMoneySignal := jsOrStr item.smartMoneySignal "NO_SMART_MONEY_SIGNAL"
      accumulationProfit := jsOrQ item.accumulationProfit 0 })
    (data.take 50)

/-- `interface RawConfluenceData` of `page.tsx` (the client-side one). -/
structure ClientRawConfluenceData where
  id : Option ℚ := none
  name : Option String := none
  currentPrice : Option ℚ := none
  buyLimit : Option ℚ := none
  bullishConfluence : Option ℚ := none
  bearishConfluence : Option ℚ := none
  signalStrength : Option String := none
  volumeConfirmation : Option String := none
  potentialProfit : Option ℚ := none
deriving DecidableEq

/-- `interface ConfluenceItem` of `page.tsx`. -/
structure ConfluenceItem where
  id : ℚ
  name : String
  currentPrice : ℚ
  buyLimit : ℚ
  bullishConfluence : ℚ
  bearishConfluence : ℚ
  signalStrength : String
  volumeConfirmation : String
  potentialProfit : ℚ
deriving DecidableEq

/-- `transformConfluenceDataFromAPI` of `page.tsx`. -/
def transformConfluenceDataFromAPI (data : List ClientRawConfluenceData) :
    List ConfluenceItem :=
  mapWithIndex (fun index item =>
    { id := jsOrQ item.id ((index : ℚ) + 1)
      name := jsOrStr item.name "Unknown Item"
      currentPrice := jsOrQ item.currentPrice 0
      buyLimit := jsOrQ item.buyLimit 0
      bullishConfluence := jsOrQ item.bullishConfluence 0
      bearishConfluence := jsOrQ item.bearishConfluence 0
      signalStrength := jsOrStr item.signalStrength "MIXED_SIGNALS"
      volumeConfirmation := jsOrStr item.volumeConfirmation "WEAK_VOLUME"
      potentialProfit := jsOrQ item.potentialProfit 0 })
    (data.take 50)

/-- `interface RawRecipeArbitrageData` of `page.tsx`. -/
structure ClientRawRecipeArbitrageData where
  id : Option ℚ := none
  productName : Option String := none
  productPrice : Option ℚ := none
  productBuyLimit : Option ℚ := none
  ingredient1Name : Option String := none
  totalIngredientCost : Option ℚ := none
  profitPerCraft : Option ℚ := none
  roi : Option ℚ := none
  recipeType : Option String := none
  liquidityLevel : Option String := none
deriving DecidableEq

/-- `interface RecipeArbitrageItem` of `page.tsx`. -/
structure RecipeArbitrageItem where
  id : ℚ
  productName : String
  productPrice : ℚ
  productBuyLimit : ℚ
  ingredient1Name : String
  totalIngredientCost : ℚ
  profitPerCraft : ℚ
  roi : ℚ
  recipeType : String
  liquidityLevel : String
deriving DecidableEq

/-- `transformRecipeArbitrageDataFromAPI` of `page.tsx`. -/
def transformRecipeArbitrageDataFromAPI (data : List ClientRawRecipeArbitrageData) :
    List RecipeArbitrageItem :=
  mapWithIndex (fun index item =>
    { id := jsOrQ item.id ((index : ℚ) + 1)
      productName := jsOrStr item.productName "Unknown Product"
      productPrice := jsOrQ item.productPrice 0
      productBuyLimit := jsOrQ item.productBuyLimit 0
      ingredient1Name := jsOrStr item.ingredient1Name ""
      totalIngredientCost := jsOrQ item.totalIngredientCost 0
      profitPerCraft := jsOrQ item.profitPerCraft 0
      roi := jsOrQ item.roi 0
      recipeType := jsOrStr item.recipeType ""
      liquidityLevel := jsOrStr item.liquidityLevel "LOW_LIQUIDITY" })
    (data.take 50)

/-- The `data.slice(0, 20).map(renderRow)` pattern shared by all six table
components (`DipsTable` and the five others): the rows actually rendered. -/
def tableDisplayRows (rows : List α) : List α :=
  rows.take 20

/-- The `fetchData` aggregation in `page.tsx`: collect the six `dataUpdated`
values, drop the falsy ones (`filter(Boolean)` removes `undefined`, `null`
and `""`), and take `Math.max` of their parsed times; `null` when none
remain.  `parseDate` abstracts `new Date(s).getTime()`. -/
def aggregateDataUpdated (parseDate : String → Int)
    (d1 d2 d3 d4 d5 d6 : Option String) : Option Int :=
  let dataTimestamps :=
    ([d1, d2, d3, d4, d5, d6].filterMap id).filter (fun s => s ≠ "")
  match dataTimestamps.map parseDate with
  | [] => none
  | t :: ts => some (ts.foldl max t)

/-! ### Helper lemmas -/

theorem jsOrQ_zero (v : Option ℚ) : jsOrQ v 0 = v.getD 0 := by
  cases v with
  | none => rfl
  | some x =>
    simp only [jsOrQ, Option.getD]
    split
    · simp_all
    · rfl

/-- Branch lemma: a fresh cached entry short-circuits `GETstep`. -/
theorem GETstep_hit (cfg : RouteConfig ρ α) (pd : String → Int) (fr : FetchResult ρ)
    (now nowErr : Int) (e : CacheEntry α) (h : now - e.timestamp < CACHE_DURATION) :
    GETstep cfg pd fr now nowErr (some e) =
      ({ status := 200, success := true, data := some e.data,
         timestamp := e.timestamp, dataUpdated := none, cached := some true,
         count := if cfg.cachedHasCount then some e.data.length else none,
         error := none }, some e) := by
  simp only [GETstep]
  rw [if_pos h]

/-- Branch lemma: on a cache miss with an absent `items` field the handler
replies 500 and leaves the cache variable unchanged. -/
theorem GETstep_throw (cfg : RouteConfig ρ α) (pd : String → Int) (fr : FetchResult ρ)
    (now nowErr : Int) (cache : Option (CacheEntry α))
    (hmiss : ∀ e, cache = some e → ¬(now - e.timestamp < CACHE_DURATION))
    (hitems : fr.items = none) :
    GETstep cfg pd fr now nowErr cache =
      ({ status := 500, success := false, data := none, timestamp := nowErr,
         dataUpdated := none, cached := none, count := none,
         error := some cfg.errorMessage }, cache) := by
  cases cache with
  | none => simp only [GETstep, hitems]
  | some e =>
    simp only [GETstep, hitems]
    rw [if_neg (hmiss e rfl)]

/-- Branch lemma: on a cache miss with a present `items` field the handler
normalizes, stores a fresh entry and replies with the fresh payload. -/
theorem GETstep_refresh (cfg : RouteConfig ρ α) (pd : String → Int) (fr : FetchResult ρ)
    (now nowErr : Int) (cache : Option (CacheEntry α)) (items : List ρ)
    (hmiss : ∀ e, cache = some e → ¬(now - e.timestamp < CACHE_DURATION))
    (hitems : fr.items = some items) :
    GETstep cfg pd fr now nowErr cache =
      ({ status := 200, success := true, data := some (cfg.process items),
         timestamp := dataTimestampOf pd fr.updated now,
         dataUpdated := some fr.updated, cached := some false,
         count := some (cfg.process items).length, error := none },
       some { data := cfg.process items
              timestamp := dataTimestampOf pd fr.updated now }) := by
  cases cache with
  | none => simp only [GETstep, hitems]
  | some e =>
    simp only [GETstep, hitems]
    rw [if_neg (hmiss e rfl)]

theorem seed_le_foldl_max (t : Int) (ts : List Int) : t ≤ ts.foldl max t := by
  induction ts generalizing t with
  | nil => exact le_refl t
  | cons x xs ih => exact le_trans (le_max_left t x) (ih (max t x))

theorem mem_le_foldl_max (t : Int) (ts : List Int) :
    ∀ v ∈ ts, v ≤ ts.foldl max t := by
  induction ts generalizing t with
  | nil => intro v hv; cases hv
  | cons x xs ih =>
    intro v hv
    rcases List.mem_cons.mp hv with h | h
    · subst h
      exact le_trans (le_max_right t v) (seed_le_foldl_max (max t v) xs)
    · exact ih (max t x) v h

theorem foldl_max_mem (t : Int) (ts : List Int) :
    ts.foldl max t = t ∨ ts.foldl max t ∈ ts := by
  induction ts generalizing t with
  | nil => exact Or.inl rfl
  | cons x xs ih =>
    rcases ih (max t x) with h | h
    · rcases max_choice t x with hm | hm
      · exact Or.inl (by rw [List.foldl_cons, h, hm])
      · exact Or.inr (by rw [List.foldl_cons, h, hm]; exact List.mem_cons_self x xs)
    · exact Or.inr (List.mem_cons_of_mem x h)

theorem processAlchemyData_length (l : List RawAlchemyData) :
    (processAlchemyData l).length = l.length :=
  length_mapWithIndex alchemyElem l

theorem processAlchemyData_names (l : List RawAlchemyData) :
    (processAlchemyData l).map (fun o => o.name) =
      l.map (fun r => jsOrStr r.ItemName "Unknown Item") := by
  rw [processAlchemyData, mapWithIndex, map_mapWithIndexFrom]
  exact mapWithIndexFrom_const_index (fun r => jsOrStr r.ItemName "Unknown Item") 0 l

theorem processAlchemyData_ids (l : List RawAlchemyData) :
    (processAlchemyData l).map (fun o => o.id) =
      (List.range l.length).map (fun i => "alchemy-" ++ toString i) := by
  rw [processAlchemyData, mapWithIndex, map_mapWithIndexFrom, List.range_eq_range']
  exact mapWithIndexFrom_const_elem (fun i => "alchemy-" ++ toString i) 0 l

theorem processDipData_length (l : List RawDipData) :
    (processDipData l).length = l.length :=
  List.length_map l dipElem

theorem processDipData_names (l : List RawDipData) :
    (processDipData l).map (fun o => o.name) =
      l.map (fun r => jsOrStr r.ItemName "Unknown Item") := by
  rw [processDipData, List.map_map]
  rfl

theorem processDipData_ids (l : List RawDipData) :
    (processDipData l).map (fun o => o.id) = l.map (fun r => jsOrQ r.id 0) := by
  rw [processDipData, List.map_map]
  rfl

theorem processVolatilityData_length (l : List RawVolatilityData) :
    (processVolatilityData l).length = l.length :=
  length_mapWithIndex volatilityElem l

theorem processVolatilityData_names (l : List RawVolatilityData) :
    (processVolatilityData l).map (fun o => o.name) =
      l.map (fun r => jsOrStr r.ItemName "Unknown Item") := by
  rw [processVolatilityData, mapWithIndex, map_mapWithIndexFrom]
  exact mapWithIndexFrom_const_index (fun r => jsOrStr r.ItemName "Unknown Item") 0 l

theorem processVolatilityData_ids (l : List RawVolatilityData) :
    (processVolatilityData l).map (fun o => o.id) =
      (List.range l.length).map (fun i : Nat => ((i : ℚ) + 1)) := by
  rw [processVolatilityData, mapWithIndex, map_mapWithIndexFrom, List.range_eq_range']
  exact mapWithIndexFrom_const_elem (fun i : Nat => ((i : ℚ) + 1)) 0 l

theorem processVolumeProfileData_length (l : List RawVolumeData) :
    (processVolumeProfileData l).length = l.length :=
  length_mapWithIndex volumeProfileElem l

theorem processVolumeProfileData_names (l : List RawVolumeData) :
    (processVolumeProfileData l).map (fun o => o.name) =
      l.map (fun r => jsOrStr r.ItemName "Unknown Item") := by
  rw [processVolumeProfileData, mapWithIndex, map_mapWithIndexFrom]
  exact mapWithIndexFrom_const_index (fun r => jsOrStr r.ItemName "Unknown Item") 0 l

theorem processVolumeProfileData_ids (l : List RawVolumeData) :
    (processVolumeProfileData l).map (fun o => o.id) =
      (List.range l.length).map (fun i : Nat => ((i : ℚ) + 1)) := by
  rw [processVolumeProfileData, mapWithIndex, map_mapWithIndexFrom, List.range_eq_range']
  exact mapWithIndexFrom_const_elem (fun i : Nat => ((i : ℚ) + 1)) 0 l

theorem processConfluenceData_length (l : List RawConfluenceData) :
    (processConfluenceData l).length = l.length :=
  length_mapWithIndex confluenceElem l

theorem processConfluenceData_names (l : List RawConfluenceData) :
    (processConfluenceData l).map (fun o => o.name) =
      l.map (fun r => jsOrStr r.ItemName "Unknown Item") := by
  rw [processConfluenceData, mapWithIndex, map_mapWithIndexFrom]
  exact mapWithIndexFrom_const_index (fun r => jsOrStr r.ItemName "Unknown Item") 0 l

theorem processConfluenceData_ids (l : List RawConfluenceData) :
    (processConfluenceData l).map (fun o => o.id) =
      (List.range l.length).map (fun i : Nat => ((i : ℚ) + 1)) := by
  rw [processConfluenceData, mapWithIndex, map_mapWithIndexFrom, List.range_eq_range']
  exact mapWithIndexFrom_const_elem (fun i : Nat => ((i : ℚ) + 1)) 0 l

theorem processRecipeArbitrageData_length (l : List RawRecipeData) :
    (processRecipeArbitrageData l).length = l.length :=
  length_mapWithIndex recipeElem l

theorem processRecipeArbitrageData_names (l : List RawRecipeData) :
    (processRecipeArbitrageData l).map (fun o => o.productName) =
      l.map (fun r => jsOrStr r.ProductName "Unknown Product") := by
  rw [processRecipeArbitrageData, mapWithIndex, map_mapWithIndexFrom]
  exact mapWithIndexFrom_const_index (fun r => jsOrStr r.ProductName "Unknown Product") 0 l

theorem processRecipeArbitrageData_ids (l : List RawRecipeData) :
    (processRecipeArbitrageData l).map (fun o => o.id) =
      (List.range l.length).map (fun i : Nat => ((i : ℚ) + 1)) := by
  rw [processRecipeArbitrageData, mapWithIndex, map_mapWithIndexFrom, List.range_eq_range']
  exact mapWithIndexFrom_const_elem (fun i : Nat => ((i : ℚ) + 1)) 0 l

/-! ### Claim theorems -/

/-- C6: the alchemy Normalizer applied to the single RawRecord
`{ ItemName: "Rune axe", LowPrice: 100, PriceFloor: 150, BuyLimit: 8 }`
yields an Opportunity with `name = "Rune axe"`, `currentLow = 100`,
`priceFloor = 150`, `potentialProfit = 50` (priceFloor − currentLow),
`tax = 1` (`floor(priceFloor × 0.01)`), `buyLimit = 8` and
`natureRuneCost = 170` (together with the remaining constant fields the
source sets). -/
theorem alchemy_concrete_scenario :
    processAlchemyData
        [{ ItemName := some "Rune axe", LowPrice := some 100,
           PriceFloor := some 150, BuyLimit := some 8 }] =
      [{ id := "alchemy-0", name := "Rune axe", members := true, icon := "",
         currentLow := 100, priceFloor := 150, buyLimit := 8,
         potentialProfit := 50, roi := 0, alchPrice := 150,
         natureRuneCost := 170, tax := 1, liquidityRisk := 1,
         capitalRisk := 1, overallRisk := 2 }] := by
  simp only [processAlchemyData, mapWithIndex, mapWithIndexFrom, alchemyElem,
    jsOrQ, jsOrStr, List.cons.injEq, AlchemyOpportunity.mk.injEq, and_true]
  norm_num
  exact ⟨rfl, by intro h; simp at h⟩

/-- C3, counterexample: the confluence Normalizer given one RawRecord with
no explicit id produces the identifier 1, not the record's position 0 — the
claimed "default-derived identifier equals its position" is false. -/
theorem normalizer_order_cex :
    (processConfluenceData [{}]).map (fun o => o.id) ≠ [(0 : ℚ)] ∧
    (processConfluenceData [{}]).map (fun o => o.id) = [(1 : ℚ)] := by
  have h : (processConfluenceData [{}]).map (fun o => o.id) = [(1 : ℚ)] := by
    simp only [processConfluenceData, mapWithIndex, mapWithIndexFrom,
      confluenceElem, List.map_cons, List.map_nil]
    norm_num
  refine ⟨?_, h⟩
  rw [h]
  intro hc
  simp only [List.cons.injEq, and_true] at hc
  norm_num at hc

/-- C3, amended: every Normalizer outputs exactly N Opportunities, in input
order (the i-th name comes from the i-th raw record); the default-derived
identifier, however, is category specific: `"alchemy-" ++ i` for alchemy,
`i + 1` for volatility, volume-profile, confluence and recipe-arbitrage,
and the constant 0 (not the position) for dip-detection when the record
carries no id. -/
theorem normalizer_order_amended (la : List RawAlchemyData) (ld : List RawDipData)
    (lv : List RawVolatilityData) (lp : List RawVolumeData)
    (lc : List RawConfluenceData) (lr : List RawRecipeData) :
    (processAlchemyData la).length = la.length ∧
    (processAlchemyData la).map (fun o => o.name) =
      la.map (fun r => jsOrStr r.ItemName "Unknown Item") ∧
    (processAlchemyData la).map (fun o => o.id) =
      (List.range la.length).map (fun i => "alchemy-" ++ toString i) ∧
    (processDipData ld).length = ld.length ∧
    (processDipData ld).map (fun o => o.name) =
      ld.map (fun r => jsOrStr r.ItemName "Unknown Item") ∧
    (processDipData ld).map (fun o => o.id) = ld.map (fun r => jsOrQ r.id 0) ∧
    (processVolatilityData lv).length = lv.length ∧
    (processVolatilityData lv).map (fun o => o.name) =
      lv.map (fun r => jsOrStr r.ItemName "Unknown Item") ∧
    (processVolatilityData lv).map (fun o => o.id) =
      (List.range lv.length).map (fun i : Nat => ((i : ℚ) + 1)) ∧
    (processVolumeProfileData lp).length = lp.length ∧
    (processVolumeProfileData lp).map (fun o => o.name) =
      lp.map (fun r => jsOrStr r.ItemName "Unknown Item") ∧
    (processVolumeProfileData lp).map (fun o => o.id) =
      (List.range lp.length).map (fun i : Nat => ((i : ℚ) + 1)) ∧
    (processConfluenceData lc).length = lc.length ∧
    (processConfluenceData lc).map (fun o => o.name) =
      lc.map (fun r => jsOrStr r.ItemName "Unknown Item") ∧
    (processConfluenceData lc).map (fun o => o.id) =
      (List.range lc.length).map (fun i : Nat => ((i : ℚ) + 1)) ∧
    (processRecipeArbitrageData lr).length = lr.length ∧
    (processRecipeArbitrageData lr).map (fun o => o.productName) =
      lr.map (fun r => jsOrStr r.ProductName "Unknown Product") ∧
    (processRecipeArbitrageData lr).map (fun o => o.id) =
      (List.range lr.length).map (fun i : Nat => ((i : ℚ) + 1)) :=
  ⟨processAlchemyData_length la, processAlchemyData_names la,
   processAlchemyData_ids la,
   processDipData_length ld, processDipData_names ld, processDipData_ids ld,
   processVolatilityData_length lv, processVolatilityData_names lv,
   processVolatilityData_ids lv,
   processVolumeProfileData_length lp, processVolumeProfileData_names lp,
   processVolumeProfileData_ids lp,
   processConfluenceData_length lc, processConfluenceData_names lc,
   processConfluenceData_ids lc,
   processRecipeArbitrageData_length lr, processRecipeArbitrageData_names lr,
   processRecipeArbitrageData_ids lr⟩

theorem jsOrStr_present (v : Option String) (d s : String)
    (hs : v = some s) (hne : s ≠ "") : jsOrStr v d = s := by
  subst hs
  simp only [jsOrStr]
  exact if_neg hne

theorem jsOrStr_default (v : Option String) (d : String)
    (h : v = none ∨ v = some "") : jsOrStr v d = d := by
  rcases h with h | h <;> subst h <;> simp [jsOrStr]

/-- C5, counterexample: the claim fails on two points.  A present-but-empty
string field does not survive normalization — the volume-profile Normalizer
maps `VolumePattern: ""` to the sentinel `"BALANCED"` because JS `||`
treats `""` as falsy.  And the dip Normalizer's volume fields have no
corresponding raw field yet are the hard-coded constant 1000 (not 0). -/
theorem defaults_cex :
    (processVolumeProfileData [{ VolumePattern := some "" }]).map
        (fun o => o.volumePattern) = ["BALANCED"] ∧
    ("BALANCED" : String) ≠ "" ∧
    (processDipData [{}]).map (fun o => o.volume24hTotal) = [(1000 : ℚ)] ∧
    (1000 : ℚ) ≠ 0 := by
  refine ⟨?_, by decide, ?_, by norm_num⟩
  · simp [processVolumeProfileData, mapWithIndex, mapWithIndexFrom,
      volumeProfileElem, jsOrStr]
  · simp [processDipData, dipElem]

/-- C5, amended: each copied numeric output field equals the raw field when
present and 0 when absent; each enum/string output field equals the raw
field when present and non-empty, and the category sentinel when the raw
field is absent or the empty string (JS `||` semantics); output fields with
no corresponding raw field (the dip route's volume metrics) are hard-coded
constants, not zero defaults.  Shown for the cited volume-profile Normalizer
(all fields) and the dip Normalizer's volume fields. -/
theorem defaults_amended (i : Nat) (r : RawVolumeData) (rd : RawDipData) :
    (volumeProfileElem i r).currentPrice = r.CurrentPrice.getD 0 ∧
    (volumeProfileElem i r).currentHigh = r.CurrentHigh.getD 0 ∧
    (volumeProfileElem i r).buyLimit = r.BuyLimit.getD 0 ∧
    (volumeProfileElem i r).lowPriceVolume = r.LowPriceVolume.getD 0 ∧
    (volumeProfileElem i r).highPriceVolume = r.HighPriceVolume.getD 0 ∧
    (volumeProfileElem i r).weeklyLowVolume = r.WeeklyLowVolume.getD 0 ∧
    (volumeProfileElem i r).weeklyHighVolume = r.WeeklyHighVolume.getD 0 ∧
    (volumeProfileElem i r).volumeImbalanceRatio = r.VolumeImbalanceRatio.getD 0 ∧
    (volumeProfileElem i r).accumulationProfit = r.AccumulationProfit.getD 0 ∧
    (∀ s, r.VolumePattern = some s → s ≠ "" →
      (volumeProfileElem i r).volumePattern = s) ∧
    ((r.VolumePattern = none ∨ r.VolumePattern = some "") →
      (volumeProfileElem i r).volumePattern = "BALANCED") ∧
    (∀ s, r.VolumeSurge = some s → s ≠ "" →
      (volumeProfileElem i r).volumeSurge = s) ∧
    ((r.VolumeSurge = none ∨ r.VolumeSurge = some "") →
      (volumeProfileElem i r).volumeSurge = "NORMAL_VOLUME") ∧
    (∀ s, r.SmartMoneySignal = some s → s ≠ "" →
      (volumeProfileElem i r).smartMoneySignal = s) ∧
    ((r.SmartMoneySignal = none ∨ r.SmartMoneySignal = some "") →
      (volumeProfileElem i r).smartMoneySignal = "NO_SMART_MONEY_SIGNAL") ∧
    (dipElem rd).volume24hTotal = 1000 ∧
    (dipElem rd).volume1hTotal = 100 ∧
    (dipElem rd).volume5mTotal = 10 ∧
    (dipElem rd).volumeSurge = 1 := by
  refine ⟨jsOrQ_zero _, jsOrQ_zero _, jsOrQ_zero _, jsOrQ_zero _, jsOrQ_zero _,
    jsOrQ_zero _, jsOrQ_zero _, jsOrQ_zero _, jsOrQ_zero _,
    ?_, ?_, ?_, ?_, ?_, ?_, rfl, rfl, rfl, rfl⟩
  · intro s hs hne
    exact jsOrStr_present _ _ _ hs hne
  · intro h
    exact jsOrStr_default _ _ h
  · intro s hs hne
    exact jsOrStr_present _ _ _ hs hne
  · intro h
    exact jsOrStr_default _ _ h
  · intro s hs hne
    exact jsOrStr_present _ _ _ hs hne
  · intro h
    exact jsOrStr_default _ _ h

/-- Witness for the amended C5 theorem at concrete records: a present
non-empty `VolumePattern` survives verbatim; an absent `VolumeSurge` becomes
its sentinel. -/
theorem defaults_amended_witness :
    (volumeProfileElem 0 { VolumePattern := some "ACCUMULATION" }).volumePattern =
      "ACCUMULATION" ∧
    (volumeProfileElem 0 {}).volumeSurge = "NORMAL_VOLUME" := by
  constructor
  · exact (defaults_amended 0 { VolumePattern := some "ACCUMULATION" }
      {}).2.2.2.2.2.2.2.2.2.1 "ACCUMULATION" rfl (by decide)
  · exact (defaults_amended 0 {} {}).2.2.2.2.2.2.2.2.2.2.2.2.1 (Or.inl rfl)

/-- C7: when the refresh path throws (the only unexpected exception the
handler can meet — `processXData` applied to an absent `items` field), the
endpoint replies 500 with the category's generic error message, no data,
and the previously stored cache entry — fresh or stale — is left completely
unchanged. -/
theorem exception_preserves_cache (cfg : RouteConfig ρ α) (pd : String → Int)
    (fr : FetchResult ρ) (now nowErr : Int) (cache : Option (CacheEntry α))
    (hthrow : fr.items = none)
    (hmiss : ∀ e, cache = some e → ¬(now - e.timestamp < CACHE_DURATION)) :
    (GETstep cfg pd fr now nowErr cache).1.status = 500 ∧
    (GETstep cfg pd fr now nowErr cache).1.success = false ∧
    (GETstep cfg pd fr now nowErr cache).1.error = some cfg.errorMessage ∧
    (GETstep cfg pd fr now nowErr cache).1.data = none ∧
    (GETstep cfg pd fr now nowErr cache).2 = cache := by
  rw [GETstep_throw cfg pd fr now nowErr cache hmiss hthrow]
  exact ⟨rfl, rfl, rfl, rfl, rfl⟩

/-- Witness for C7: a concrete alchemy request with a stale stored entry and
a fetch result whose `items` is absent produces the 500 reply and leaves the
stale entry in place. -/
theorem exception_preserves_cache_witness :
    (GETstep alchemyRoute (fun _ => 0) ⟨none, none⟩ 99999 99999
        (some ⟨[], 0⟩)).1.status = 500 ∧
    (GETstep alchemyRoute (fun _ => 0) ⟨none, none⟩ 99999 99999
        (some ⟨[], 0⟩)).1.success = false ∧
    (GETstep alchemyRoute (fun _ => 0) ⟨none, none⟩ 99999 99999
        (some ⟨[], 0⟩)).1.error = some "Failed to analyze alchemy opportunities" ∧
    (GETstep alchemyRoute (fun _ => 0) ⟨none, none⟩ 99999 99999
        (some ⟨[], 0⟩)).1.data = none ∧
    (GETstep alchemyRoute (fun _ => 0) ⟨none, none⟩ 99999 99999
        (some ⟨[], 0⟩)).2 = some ⟨[], 0⟩ :=
  exception_preserves_cache alchemyRoute (fun _ => 0) ⟨none, none⟩ 99999 99999
    (some ⟨[], 0⟩) rfl
    (by intro e he; injection he with h; subst h; decide)

/-- C1, counterexample: two GET requests one millisecond apart with no
intervening refresh, where the source document carries an `updated`
timestamp parsing to time 0.  The first request (at 10000) stores the entry
with timestamp 0, so the second (at 10001, well within W = 5000 of the
first) finds it already stale and reports `cached = false` — the claimed
freshness window does not hold. -/
theorem freshness_window_cex :
    ((GETrun alchemyRoute (fun _ => 0)
        ⟨.resp 200 (.doc (some []) (some "2024-01-01T00:00:00Z")), .throws, .throws⟩
        10000 10000 none).2 = some ⟨[], 0⟩) ∧
    ((10001 : Int) - 10000 < CACHE_DURATION) ∧
    ((GETrun alchemyRoute (fun _ => 0)
        ⟨.resp 200 (.doc (some []) (some "2024-01-01T00:00:00Z")), .throws, .throws⟩
        10001 10001
        ((GETrun alchemyRoute (fun _ => 0)
          ⟨.resp 200 (.doc (some []) (some "2024-01-01T00:00:00Z")), .throws, .throws⟩
          10000 10000 none).2)).1.cached = some false) := by
  decide

/-- C1, amended: freshness is measured against the stored entry's
timestamp, which is the source's `updated` time when present (else the
fetch time), not against the first request's arrival time.  Whenever a GET
leaves an entry that is still fresh at the second request's time, the first
reply carried exactly that entry's data and the second reply is the cached
branch: identical data, `cached = true`, and the entry untouched — so no
duplicate fetch is triggered.  When the source reports no `updated`
timestamp the entry is stamped with the fetch time and the claim's original
reading (any second call within W of the first) follows. -/
theorem freshness_window_amended (cfg : RouteConfig ρ α) (pd : String → Int)
    (net1 net2 : Network ρ) (now1 nowErr1 now2 nowErr2 : Int)
    (st0 : Option (CacheEntry α)) (e : CacheEntry α)
    (hle : now1 ≤ now2)
    (h1 : (GETrun cfg pd net1 now1 nowErr1 st0).2 = some e)
    (h2 : now2 - e.timestamp < CACHE_DURATION) :
    (GETrun cfg pd net1 now1 nowErr1 st0).1.data = some e.data ∧
    GETrun cfg pd net2 now2 nowErr2 (some e) =
      ({ status := 200, success := true, data := some e.data,
         timestamp := e.timestamp, dataUpdated := none, cached := some true,
         count := if cfg.cachedHasCount then some e.data.length else none,
         error := none }, some e) := by
  refine ⟨?_, GETstep_hit cfg pd (fetchData net2).1 now2 nowErr2 e h2⟩
  unfold GETrun at h1 ⊢
  cases st0 with
  | none =>
    cases hfi : ((fetchData net1).1).items with
    | none =>
      rw [GETstep_throw cfg pd _ now1 nowErr1 none
        (by intro e1 he1; cases he1) hfi] at h1
      simp at h1
    | some its =>
      rw [GETstep_refresh cfg pd _ now1 nowErr1 none its
        (by intro e1 he1; cases he1) hfi] at h1 ⊢
      simp only [Option.some.injEq] at h1
      rw [← h1]
  | some e0 =>
    by_cases hfresh : now1 - e0.timestamp < CACHE_DURATION
    · rw [GETstep_hit cfg pd _ now1 nowErr1 e0 hfresh] at h1 ⊢
      simp only [Option.some.injEq] at h1
      rw [← h1]
    · cases hfi : ((fetchData net1).1).items with
      | none =>
        rw [GETstep_throw cfg pd _ now1 nowErr1 (some e0)
          (by intro e1 he1; injection he1 with h; subst h; exact hfresh) hfi] at h1
        simp only [Option.some.injEq] at h1
        subst h1
        exact absurd h2 (by omega)
      | some its =>
        rw [GETstep_refresh cfg pd _ now1 nowErr1 (some e0) its
          (by intro e1 he1; injection he1 with h; subst h; exact hfresh) hfi] at h1 ⊢
        simp only [Option.some.injEq] at h1
        rw [← h1]

/-- Witness for the amended C1 theorem: the source document carries no
`updated` field, so the first request (at 0) stamps the entry with the
fetch time and the second request (at 1) serves it from cache. -/
theorem freshness_window_amended_witness :
    (GETrun alchemyRoute (fun _ => 0)
        ⟨.resp 200 (.doc (some []) none), .throws, .throws⟩
        0 0 none).1.data = some ([] : List AlchemyOpportunity) ∧
    GETrun alchemyRoute (fun _ => 0)
        ⟨.resp 200 (.doc (some []) none), .throws, .throws⟩
        1 1 (some ⟨[], 0⟩) =
      ({ status := 200, success := true, data := some [], timestamp := 0,
         dataUpdated := none, cached := some true, count := none,
         error := none }, some ⟨[], 0⟩) :=
  freshness_window_amended alchemyRoute (fun _ => 0)
    ⟨.resp 200 (.doc (some []) none), .throws, .throws⟩
    ⟨.resp 200 (.doc (some []) none), .throws, .throws⟩
    0 0 1 1 none ⟨[], 0⟩ (by decide) (by decide) (by decide)

/-- Characterization of `fetchData`'s result by the final response of the
fallback chain. -/
theorem fetchData_eq (net : Network ρ) :
    (fetchData net).1 =
      match (fetchChain net).1 with
      | .resp s (.doc i u) =>
        if statusOk s then ⟨i, u⟩ else ⟨some [], none⟩
      | _ => ⟨some [], none⟩ := by
  rcases hfc : fetchChain net with ⟨final, trace⟩
  cases final with
  | throws => simp [fetchData, hfc]
  | resp s body =>
    cases body with
    | malformed =>
      simp only [fetchData, hfc]
      by_cases hs : statusOk s <;> simp [hs]
    | doc i u =>
      simp only [fetchData, hfc]
      by_cases hs : statusOk s <;> simp [hs]

/-- The trace of endpoints contacted is determined by the fetch chain alone. -/
theorem fetchData_trace (net : Network ρ) :
    (fetchData net).2 = (fetchChain net).2 := by
  rcases hfc : fetchChain net with ⟨final, trace⟩
  cases final with
  | throws => simp [fetchData, hfc]
  | resp s body =>
    cases body with
    | malformed =>
      simp only [fetchData, hfc]
      by_cases hs : statusOk s <;> simp [hs]
    | doc i u =>
      simp only [fetchData, hfc]
      by_cases hs : statusOk s <;> simp [hs]

/-- C2, counterexample: the primary endpoint answers 200 with a JSON body
that has no `items` field.  `fetchXData` then returns `items` absent — not
the claimed empty-result `{ items: [], updated: null }` — and the endpoint
turns that into a 500 error response instead of a success with zero
opportunities. -/
theorem fetch_missing_items_cex :
    (fetchData (ρ := RawAlchemyData)
        ⟨.resp 200 (.doc none (some "2025-06-01")), .throws, .throws⟩).1.items =
      none ∧
    (fetchData (ρ := RawAlchemyData)
        ⟨.resp 200 (.doc none (some "2025-06-01")), .throws, .throws⟩).1 ≠
      ⟨some [], none⟩ ∧
    (GETrun alchemyRoute (fun _ => 0)
        ⟨.resp 200 (.doc none (some "2025-06-01")), .throws, .throws⟩
        0 0 none).1.status = 500 ∧
    (GETrun alchemyRoute (fun _ => 0)
        ⟨.resp 200 (.doc none (some "2025-06-01")), .throws, .throws⟩
        0 0 none).1.success = false := by
  decide

/-- C2, amended: the Source Fetcher never raises; whenever the fallback
chain does not end in an ok response with a parseable JSON document it
returns `{ items: [], updated: null }`; an ok document's `items` and
`updated` are forwarded verbatim — so a body lacking `items` yields an
absent `items` field, which the route handler turns into a 500 response
(leaving the cache untouched) rather than the empty-result case. -/
theorem fetch_failure_amended (cfg : RouteConfig ρ α) (pd : String → Int)
    (net : Network ρ) (now nowErr : Int) (st : Option (CacheEntry α)) :
    (reachesOkDoc net = false → (fetchData net).1 = ⟨some [], none⟩) ∧
    (∀ s i u, (fetchChain net).1 = NetResult.resp s (JsonBody.doc i u) →
      statusOk s = true → (fetchData net).1 = ⟨i, u⟩) ∧
    ((fetchData net).1.items = none →
      (∀ e, st = some e → ¬(now - e.timestamp < CACHE_DURATION)) →
      (GETrun cfg pd net now nowErr st).1.status = 500 ∧
      (GETrun cfg pd net now nowErr st).1.success = false ∧
      (GETrun cfg pd net now nowErr st).2 = st) := by
  refine ⟨?_, ?_, ?_⟩
  · intro hdoc
    rw [fetchData_eq]
    rcases hfc : (fetchChain net).1 with _ | ⟨s, body⟩
    · rfl
    · cases body with
      | malformed => rfl
      | doc i u =>
        rw [reachesOkDoc, hfc] at hdoc
        simp only [] at hdoc
        simp [hdoc]
  · intro s i u hfc hs
    rw [fetchData_eq, hfc]
    simp [hs]
  · intro hnone hmiss
    unfold GETrun
    rw [GETstep_throw cfg pd ((fetchData net).1) now nowErr st hmiss hnone]
    exact ⟨rfl, rfl, rfl⟩

/-- Witness for the amended C2 theorem at three concrete networks: a fully
unreachable network yields the empty result; an ok document after a failed
primary is forwarded verbatim; an absent `items` field makes the handler
reply 500 without touching the cache. -/
theorem fetch_failure_amended_witness :
    (fetchData (ρ := RawAlchemyData) ⟨.throws, .throws, .throws⟩).1 =
      ⟨some [], none⟩ ∧
    (fetchData (ρ := RawAlchemyData)
        ⟨.resp 403 .malformed, .resp 200 (.doc (some []) (some "u")), .throws⟩).1 =
      ⟨some [], some "u"⟩ ∧
    ((GETrun alchemyRoute (fun _ => 0)
        ⟨.resp 200 (.doc none none), .throws, .throws⟩ 0 0 none).1.status = 500 ∧
     (GETrun alchemyRoute (fun _ => 0)
        ⟨.resp 200 (.doc none none), .throws, .throws⟩ 0 0 none).1.success = false ∧
     (GETrun alchemyRoute (fun _ => 0)
        ⟨.resp 200 (.doc none none), .throws, .throws⟩ 0 0 none).2 = none) :=
  ⟨(fetch_failure_amended alchemyRoute (fun _ => 0)
      ⟨.throws, .throws, .throws⟩ 0 0 none).1 (by decide),
   (fetch_failure_amended alchemyRoute (fun _ => 0)
      ⟨.resp 403 .malformed, .resp 200 (.doc (some []) (some "u")), .throws⟩
      0 0 none).2.1 200 (some []) (some "u") (by decide) (by decide),
   (fetch_failure_amended alchemyRoute (fun _ => 0)
      ⟨.resp 200 (.doc none none), .throws, .throws⟩ 0 0 none).2.2 (by decide)
      (fun e he => Option.noConfusion he)⟩

/-- C4, counterexample: a cache-hit 200 response from the alchemy route
carries neither a `count` nor a `dataUpdated` key, so the claimed full
success shape does not hold for the cached branch. -/
theorem response_shape_cex :
    (GETrun alchemyRoute (fun _ => 0) ⟨.throws, .throws, .throws⟩ 1 1
        (some ⟨[], 0⟩)).1.status = 200 ∧
    (GETrun alchemyRoute (fun _ => 0) ⟨.throws, .throws, .throws⟩ 1 1
        (some ⟨[], 0⟩)).1.cached = some true ∧
    (GETrun alchemyRoute (fun _ => 0) ⟨.throws, .throws, .throws⟩ 1 1
        (some ⟨[], 0⟩)).1.count = none ∧
    (GETrun alchemyRoute (fun _ => 0) ⟨.throws, .throws, .throws⟩ 1 1
        (some ⟨[], 0⟩)).1.dataUpdated = none := by
  decide


/-- C4, amended: every reply is a 200 or a 500.  A fresh (`cached = false`)
200 carries the full claimed shape with `count = data.length` and a
`dataUpdated` key; a cache-hit (`cached = true`) 200 carries success, data
and timestamp but no `dataUpdated` key, and a `count` key (equal to
`data.length`) only in the four routes whose cached branch includes it
(volatility, volume-profile, confluence, recipe-arbitrage) — not alchemy or
dip-detection.  Every 500 carries `success = false`, the category error
string and the error-time timestamp, with no data. -/
theorem response_shape_amended (cfg : RouteConfig ρ α) (pd : String → Int)
    (fr : FetchResult ρ) (now nowErr : Int) (st : Option (CacheEntry α))
    (r : ApiResponse α) (st2 : Option (CacheEntry α))
    (hr : GETstep cfg pd fr now nowErr st = (r, st2)) :
    (r.status = 200 ∨ r.status = 500) ∧
    (r.status = 200 → r.success = true ∧ r.data.isSome ∧
      (r.cached = some true ∨ r.cached = some false)) ∧
    (r.cached = some false → ∀ d, r.data = some d →
      r.dataUpdated = some fr.updated ∧ r.count = some d.length) ∧
    (r.cached = some true → r.dataUpdated = none ∧ ∀ d, r.data = some d →
      r.count = if cfg.cachedHasCount then some d.length else none) ∧
    (r.status = 500 → r.success = false ∧ r.data = none ∧
      r.error = some cfg.errorMessage ∧ r.timestamp = nowErr ∧
      r.cached = none ∧ r.count = none) := by
  cases st with
  | none =>
    cases hfi : fr.items with
    | none =>
      rw [GETstep_throw cfg pd fr now nowErr none
        (by intro e he; cases he) hfi] at hr
      injection hr with h1 h2
      subst h1
      exact ⟨Or.inr rfl, fun h => by simp at h,
        fun h => by simp at h, fun h => by simp at h,
        fun _ => ⟨rfl, rfl, rfl, rfl, rfl, rfl⟩⟩
    | some its =>
      rw [GETstep_refresh cfg pd fr now nowErr none its
        (by intro e he; cases he) hfi] at hr
      injection hr with h1 h2
      subst h1
      refine ⟨Or.inl rfl, fun _ => ⟨rfl, rfl, Or.inr rfl⟩, ?_,
        fun h => by simp at h, fun h => by simp at h⟩
      intro _ d hd
      injection hd with hd
      subst hd
      exact ⟨rfl, rfl⟩
  | some e =>
    by_cases hf : now - e.timestamp < CACHE_DURATION
    · rw [GETstep_hit cfg pd fr now nowErr e hf] at hr
      injection hr with h1 h2
      subst h1
      refine ⟨Or.inl rfl, fun _ => ⟨rfl, rfl, Or.inl rfl⟩,
        fun h => by simp at h, ?_, fun h => by simp at h⟩
      intro _
      refine ⟨rfl, ?_⟩
      intro d hd
      injection hd with hd
      subst hd
      rfl
    · cases hfi : fr.items with
      | none =>
        rw [GETstep_throw cfg pd fr now nowErr (some e)
          (by intro e1 he1; injection he1 with h; subst h; exact hf) hfi] at hr
        injection hr with h1 h2
        subst h1
        exact ⟨Or.inr rfl, fun h => by simp at h,
          fun h => by simp at h, fun h => by simp at h,
          fun _ => ⟨rfl, rfl, rfl, rfl, rfl, rfl⟩⟩
      | some its =>
        rw [GETstep_refresh cfg pd fr now nowErr (some e) its
          (by intro e1 he1; injection he1 with h; subst h; exact hf) hfi] at hr
        injection hr with h1 h2
        subst h1
        refine ⟨Or.inl rfl, fun _ => ⟨rfl, rfl, Or.inr rfl⟩, ?_,
          fun h => by simp at h, fun h => by simp at h⟩
        intro _ d hd
        injection hd with hd
        subst hd
        exact ⟨rfl, rfl⟩

/-- Witness for the amended C4 theorem: a fresh volume-profile reply at a
concrete input carries the `dataUpdated` key (holding the absent source
timestamp) and `count = 0` for its empty data. -/
theorem response_shape_amended_witness :
    (GETstep volumeProfileRoute (fun _ => 0)
        (⟨some [], none⟩ : FetchResult RawVolumeData) 5 5 none).1.dataUpdated =
      some none ∧
    (GETstep volumeProfileRoute (fun _ => 0)
        (⟨some [], none⟩ : FetchResult RawVolumeData) 5 5 none).1.count =
      some 0 :=
  (response_shape_amended volumeProfileRoute (fun _ => 0) ⟨some [], none⟩ 5 5 none
      ((GETstep volumeProfileRoute (fun _ => 0) ⟨some [], none⟩ 5 5 none).1)
      ((GETstep volumeProfileRoute (fun _ => 0) ⟨some [], none⟩ 5 5 none).2)
      rfl).2.2.1 (by decide) [] (by decide)

/-- C9: within one category's Source Fetcher the first fetch always targets
the primary endpoint; when the primary responds ok no secondary fetch
happens at all; the secondary endpoint appears in the trace only when the
primary attempt was observed to fail (a thrown fetch or a non-ok status).
Concretely, a 403 primary followed by a valid secondary document yields a
success built from the secondary document — a 200 reply with no error key
and no trace of the 403. -/
theorem fetch_sequential_403 :
    (∀ (ρ : Type) (net : Network ρ),
      (fetchData net).2.head? = some Endpoint.primary ∧
      (∀ s b, net.primary = NetResult.resp s b → statusOk s = true →
        (fetchData net).2 = [Endpoint.primary]) ∧
      (Endpoint.secondary ∈ (fetchData net).2 →
        net.primary = NetResult.throws ∨
        ∃ s b, net.primary = NetResult.resp s b ∧ statusOk s = false)) ∧
    (fetchData (ρ := RawAlchemyData)
        ⟨.resp 403 (.doc (some []) none),
         .resp 200 (.doc (some []) (some "2025-01-01T00:00:00Z")), .throws⟩).1 =
      ⟨some [], some "2025-01-01T00:00:00Z"⟩ ∧
    (fetchData (ρ := RawAlchemyData)
        ⟨.resp 403 (.doc (some []) none),
         .resp 200 (.doc (some []) (some "2025-01-01T00:00:00Z")), .throws⟩).2 =
      [Endpoint.primary, Endpoint.secondary] ∧
    (GETrun alchemyRoute (fun _ => 7)
        ⟨.resp 403 (.doc (some []) none),
         .resp 200 (.doc (some []) (some "2025-01-01T00:00:00Z")), .throws⟩
        0 0 none).1 =
      { status := 200, success := true, data := some [], timestamp := 7,
        dataUpdated := some (some "2025-01-01T00:00:00Z"), cached := some false,
        count := some 0, error := none } := by
  refine ⟨?_, by decide, by decide, by decide⟩
  intro ρ net
  have htr : (fetchData net).2 = (fetchChain net).2 := fetchData_trace net
  refine ⟨?_, ?_, ?_⟩
  · rw [htr]
    rcases hp : net.primary with _ | ⟨s, b⟩
    · simp [fetchChain, hp]
    · by_cases hs : statusOk s
      · simp [fetchChain, hp, hs]
      · rcases h1 : net.secondary1 with _ | ⟨s1, b1⟩
        · simp [fetchChain, hp, hs, h1]
        · simp [fetchChain, hp, hs, h1]
  · intro s b hp hs
    rw [htr]
    simp [fetchChain, hp, hs]
  · intro hmem
    rw [htr] at hmem
    rcases hp : net.primary with _ | ⟨s, b⟩
    · exact Or.inl rfl
    · by_cases hs : statusOk s
      · rw [fetchChain, hp] at hmem
        simp only [hs, if_true] at hmem
        exact absurd (List.mem_singleton.mp hmem) (by decide)
      · exact Or.inr ⟨s, b, rfl, by simpa using hs⟩

/-- Witness for C9: an ok primary produces the single-element primary
trace; a 404 primary puts the secondary in the trace and the theorem then
certifies the primary was observed to fail. -/
theorem fetch_sequential_403_witness :
    (fetchData (ρ := RawAlchemyData)
        ⟨.resp 200 (.doc (some []) none), .throws, .throws⟩).2 =
      [Endpoint.primary] ∧
    ((⟨.resp 404 .malformed, .resp 200 .malformed, .throws⟩ :
        Network RawAlchemyData).primary = NetResult.throws ∨
      ∃ s b, (⟨.resp 404 .malformed, .resp 200 .malformed, .throws⟩ :
        Network RawAlchemyData).primary = NetResult.resp s b ∧
          statusOk s = false) :=
  ⟨(fetch_sequential_403.1 RawAlchemyData
      ⟨.resp 200 (.doc (some []) none), .throws, .throws⟩).2.1
      200 (.doc (some []) none) rfl (by decide),
   (fetch_sequential_403.1 RawAlchemyData
      ⟨.resp 404 .malformed, .resp 200 .malformed, .throws⟩).2.2 (by decide)⟩

/-- C8: the client aggregator drops the absent (falsy) `dataUpdated`
values and takes the maximum of the remaining parsed timestamps; the
unified timestamp is null exactly when no category reports one, and
otherwise it is one of the reported timestamps and an upper bound of all
of them. -/
theorem aggregate_timestamp_spec (pd : String → Int)
    (d1 d2 d3 d4 d5 d6 : Option String) :
    (aggregateDataUpdated pd d1 d2 d3 d4 d5 d6 = none ↔
      ([d1, d2, d3, d4, d5, d6].filterMap id).filter (fun s => s ≠ "") = []) ∧
    (∀ m, aggregateDataUpdated pd d1 d2 d3 d4 d5 d6 = some m →
      m ∈ (([d1, d2, d3, d4, d5, d6].filterMap id).filter
          (fun s => s ≠ "")).map pd ∧
      ∀ v ∈ (([d1, d2, d3, d4, d5, d6].filterMap id).filter
          (fun s => s ≠ "")).map pd, v ≤ m) := by
  unfold aggregateDataUpdated
  cases hM : (([d1, d2, d3, d4, d5, d6].filterMap id).filter
      (fun s => s ≠ "")).map pd with
  | nil =>
    simp only [hM]
    refine ⟨⟨fun _ => List.map_eq_nil_iff.mp hM, fun _ => trivial⟩, ?_⟩
    intro m hm
    exact Option.noConfusion hm
  | cons t ts =>
    simp only [hM]
    constructor
    · constructor
      · intro h
        exact Option.noConfusion h
      · intro h
        rw [h] at hM
        exact absurd hM (by simp)
    · intro m hm
      injection hm with hm
      subst hm
      constructor
      · rcases foldl_max_mem t ts with h | h
        · rw [h]
          exact List.mem_cons_self t ts
        · exact List.mem_cons_of_mem t h
      · intro v hv
        rcases List.mem_cons.mp hv with h | h
        · subst h
          exact seed_le_foldl_max v ts
        · exact mem_le_foldl_max t ts v h

/-- Witness for C8 at a concrete instance: with reported timestamps "aa",
"" (falsy, dropped) and "abcd", parsed by string length, the aggregate is 4
and the theorem certifies it is a member and an upper bound of the parsed
values. -/
theorem aggregate_timestamp_spec_witness :
    (4 : Int) ∈ (([some "aa", none, some "", some "abcd", none,
        none].filterMap id).filter (fun s => s ≠ "")).map
        (fun s => (s.length : Int)) ∧
    ∀ v ∈ (([some "aa", none, some "", some "abcd", none,
        none].filterMap id).filter (fun s => s ≠ "")).map
        (fun s => (s.length : Int)), v ≤ 4 :=
  (aggregate_timestamp_spec (fun s => (s.length : Int))
      (some "aa") none (some "") (some "abcd") none none).2 4 (by decide)

/-- C10: every client-side transform truncates its category's list to at
most the first 50 records before mapping — the transform of a list equals
the transform of its 50-prefix, so records beyond 50 are dropped — and
every table component renders at most the first 20 of the transformed
rows.  None of this appears in the spec. -/
theorem client_truncation (fmt : ℚ → String)
    (dd : List ClientRawDipData) (da : List ClientRawAlchemyData)
    (dv : List ClientRawVolatilityData) (dp : List ClientRawVolumeProfileData)
    (dc : List ClientRawConfluenceData) (dr : List ClientRawRecipeArbitrageData)
    (rows : List DipItem) :
    (transformDipsDataFromAPI fmt dd).length = min dd.length 50 ∧
    transformDipsDataFromAPI fmt dd = transformDipsDataFromAPI fmt (dd.take 50) ∧
    (dd.length > 50 → (transformDipsDataFromAPI fmt dd).length = 50) ∧
    (transformAlchemyDataFromAPI da).length = min da.length 50 ∧
    transformAlchemyDataFromAPI da = transformAlchemyDataFromAPI (da.take 50) ∧
    (da.length > 50 → (transformAlchemyDataFromAPI da).length = 50) ∧
    (transformVolatilityDataFromAPI dv).length = min dv.length 50 ∧
    transformVolatilityDataFromAPI dv =
      transformVolatilityDataFromAPI (dv.take 50) ∧
    (dv.length > 50 → (transformVolatilityDataFromAPI dv).length = 50) ∧
    (transformVolumeProfileDataFromAPI dp).length = min dp.length 50 ∧
    transformVolumeProfileDataFromAPI dp =
      transformVolumeProfileDataFromAPI (dp.take 50) ∧
    (dp.length > 50 → (transformVolumeProfileDataFromAPI dp).length = 50) ∧
    (transformConfluenceDataFromAPI dc).length = min dc.length 50 ∧
    transformConfluenceDataFromAPI dc =
      transformConfluenceDataFromAPI (dc.take 50) ∧
    (dc.length > 50 → (transformConfluenceDataFromAPI dc).length = 50) ∧
    (transformRecipeArbitrageDataFromAPI dr).length = min dr.length 50 ∧
    transformRecipeArbitrageDataFromAPI dr =
      transformRecipeArbitrageDataFromAPI (dr.take 50) ∧
    (dr.length > 50 → (transformRecipeArbitrageDataFromAPI dr).length = 50) ∧
    (tableDisplayRows rows).length = min rows.length 20 ∧
    (rows.length > 20 → (tableDisplayRows rows).length = 20) := by
  refine ⟨?_, ?_, ?_, ?_, ?_, ?_, ?_, ?_, ?_, ?_, ?_, ?_, ?_, ?_, ?_, ?_, ?_,
    ?_, ?_, ?_⟩
  · simp only [transformDipsDataFromAPI, List.length_map, List.length_take]
    omega
  · simp only [transformDipsDataFromAPI, List.take_take, Nat.min_self]
  · intro h
    simp only [transformDipsDataFromAPI, List.length_map, List.length_take]
    omega
  · simp only [transformAlchemyDataFromAPI, List.length_map, List.length_take]
    omega
  · simp only [transformAlchemyDataFromAPI, List.take_take, Nat.min_self]
  · intro h
    simp only [transformAlchemyDataFromAPI, List.length_map, List.length_take]
    omega
  · simp only [transformVolatilityDataFromAPI, length_mapWithIndex,
      List.length_take]
    omega
  · simp only [transformVolatilityDataFromAPI, List.take_take, Nat.min_self]
  · intro h
    simp only [transformVolatilityDataFromAPI, length_mapWithIndex,
      List.length_take]
    omega
  · simp only [transformVolumeProfileDataFromAPI, length_mapWithIndex,
      List.length_take]
    omega
  · simp only [transformVolumeProfileDataFromAPI, List.take_take, Nat.min_self]
  · intro h
    simp only [transformVolumeProfileDataFromAPI, length_mapWithIndex,
      List.length_take]
    omega
  · simp only [transformConfluenceDataFromAPI, length_mapWithIndex,
      List.length_take]
    omega
  · simp only [transformConfluenceDataFromAPI, List.take_take, Nat.min_self]
  · intro h
    simp only [transformConfluenceDataFromAPI, length_mapWithIndex,
      List.length_take]
    omega
  · simp only [transformRecipeArbitrageDataFromAPI, length_mapWithIndex,
      List.length_take]
    omega
  · simp only [transformRecipeArbitrageDataFromAPI, List.take_take,
      Nat.min_self]
  · intro h
    simp only [transformRecipeArbitrageDataFromAPI, length_mapWithIndex,
      List.length_take]
    omega
  · simp only [tableDisplayRows, List.length_take]
    omega
  · intro h
    simp only [tableDisplayRows, List.length_take]
    omega

/-- Witness for C10 at concrete oversized inputs: 51 raw dip records are
cut to 50 by the transform and 21 transformed rows are cut to 20 by the
table. -/
theorem client_truncation_witness :
    (transformDipsDataFromAPI (fun _ => "") (List.replicate 51 {})).length = 50 ∧
    (tableDisplayRows (List.replicate 21
        ({ id := 0, name := "", currentPrice := 0, avgPrice24h := 0,
           priceDropPercent := 0, volumeSpike := 0, buyLimit := 0,
           recoveryPotential := 0, members := false, buyRange := "",
           sellRange := "", estimatedProfit := 0 } : DipItem))).length = 20 := by
  obtain ⟨-, -, h3, -, -, -, -, -, -, -, -, -, -, -, -, -, -, -, -, h20⟩ :=
    client_truncation (fun _ => "") (List.replicate 51 {}) [] [] [] [] []
      (List.replicate 21
        ({ id := 0, name := "", currentPrice := 0, avgPrice24h := 0,
           priceDropPercent := 0, volumeSpike := 0, buyLimit := 0,
           recoveryPotential := 0, members := false, buyRange := "",
           sellRange := "", estimatedProfit := 0 } : DipItem))
  exact ⟨h3 (by simp), h20 (by simp)⟩
